import Mathlib

/-!
Verification of the HTTP API layer of the foodgram recipe application
(backend/foodgram/api/views.py), as a shallow embedding in Lean 4.

The data layer is modelled as plain lists of rows: join tables such as
Favorite, ShoppingCart and Subscription become lists of pairs of ids, and
IngredientAmount becomes a list of records.  Each view method becomes a
pure function from the store (and the request parameters) to a response
value together with the resulting store.  Framework behaviour that the
views rely on (get_object_or_404, Django query aggregation, DRF status
codes) is translated according to its documented semantics.
-/

/-- A row of the IngredientAmount table: the quantity of one ingredient
required by one recipe.  The ingredient's name and measurement unit are
inlined, matching the columns the aggregation query selects
(ingredient__name, ingredient__measurement_unit, amount). -/
structure IngredientAmountRow where
  recipe : Nat
  ingredientName : String
  measurementUnit : String
  amount : Nat
  deriving DecidableEq, Repr

/-- The persistent store the views read and write.  Users and recipes are
identified by ids; Favorite and ShoppingCart rows are (user id, recipe id)
pairs, Subscription rows are (user id, author id) pairs. -/
structure Store where
  users : List Nat
  recipes : List Nat
  ingredientAmounts : List IngredientAmountRow
  favorites : List (Nat × Nat)
  shoppingCarts : List (Nat × Nat)
  subscriptions : List (Nat × Nat)
  deriving DecidableEq, Repr

/-- The rows selected by
`IngredientAmount.objects.filter(recipe__shopcart__user=request.user)`:
every IngredientAmount row whose recipe is in the requesting user's
shopping cart. -/
def cartRows (st : Store) (user : Nat) : List IngredientAmountRow :=
  st.ingredientAmounts.filter (fun r => decide ((user, r.recipe) ∈ st.shoppingCarts))

/-- The grouping key of the aggregation:
`.values('ingredient__name', 'ingredient__measurement_unit')`. -/
def ingredientKey (r : IngredientAmountRow) : String × String :=
  (r.ingredientName, r.measurementUnit)

/-- The ordering used by `.order_by('ingredient__name')` on grouped rows:
by ingredient name, ties broken by measurement unit (a concrete
realization of the name ordering, which leaves ties unspecified). -/
def keyLe (a b : String × String) : Prop :=
  a.1 < b.1 ∨ (a.1 = b.1 ∧ a.2 ≤ b.2)

instance : DecidableRel keyLe := by
  intro a b
  unfold keyLe
  infer_instance

instance : IsTotal (String × String) keyLe := by
  constructor
  intro a b
  rcases lt_trichotomy a.1 b.1 with h | h | h
  · exact Or.inl (Or.inl h)
  · rcases le_total a.2 b.2 with h2 | h2
    · exact Or.inl (Or.inr ⟨h, h2⟩)
    · exact Or.inr (Or.inr ⟨h.symm, h2⟩)
  · exact Or.inr (Or.inl h)

instance : IsTrans (String × String) keyLe := by
  constructor
  intro a b c hab hbc
  rcases hab with h1 | ⟨h1, h1u⟩
  · rcases hbc with h2 | ⟨h2, _⟩
    · exact Or.inl (h1.trans h2)
    · exact Or.inl (h2 ▸ h1)
  · rcases hbc with h2 | ⟨h2, h2u⟩
    · exact Or.inl (h1 ▸ h2)
    · exact Or.inr ⟨h1.trans h2, h1u.trans h2u⟩

/-- The distinct grouping keys occurring among the user's cart rows:
SQL grouping produces one group per distinct (name, unit) pair. -/
def cartKeys (st : Store) (user : Nat) : List (String × String) :=
  ((cartRows st user).map ingredientKey).dedup

/-- `annotate(ingredient_amount=Sum('amount'))`: the summed amount of one
group, i.e. of all cart rows whose (name, unit) pair equals the key. -/
def groupAmount (st : Store) (user : Nat) (k : String × String) : Nat :=
  (((cartRows st user).filter
      (fun r => decide (r.ingredientName = k.1 ∧ r.measurementUnit = k.2))).map
    (fun r => r.amount)).sum

/-- The grouped, ordered aggregation result: one (name, unit, summed
amount) triple per distinct key, ordered by the key ordering. -/
def shoppingGroups (st : Store) (user : Nat) : List (String × String × Nat) :=
  (List.insertionSort keyLe (cartKeys st user)).map
    (fun k => (k.1, k.2, groupAmount st user k))

/-- One output line per group, from the loop body
`text_content.append(f'...')` which renders name, amount and unit. -/
def shoppingLine (g : String × String × Nat) : String :=
  g.1 ++ ": " ++ toString g.2.2 ++ " " ++ g.2.1 ++ "\n"

/-- The literal body returned when the aggregation result is empty. -/
def emptyCartMessage : String := "В вашей корзине пусто"

/-- The header line prepended to a non-empty listing. -/
def shoppingHeader : String := "Список покупок:\n"

/-- The text assembled by download_shopping_cart: the empty-cart literal
when `ingredients.count() == 0`, otherwise the header followed by one
line per group, joined. -/
def shoppingText (st : Store) (user : Nat) : String :=
  if (shoppingGroups st user).length = 0 then emptyCartMessage
  else String.join (shoppingHeader :: (shoppingGroups st user).map shoppingLine)

/-- An HTTP response as the views build it: status code, the two headers
the download endpoint sets, and the body text. -/
structure HttpResp where
  statusCode : Nat
  contentType : String
  contentDisposition : String
  body : String
  deriving DecidableEq, Repr

/-- RecipeViewSet.download_shopping_cart: builds the shopping text and
returns it as an HttpResponse with status 200, content type text/plain
and a Content-Disposition header naming the attachment
shopping_list.txt.  Both branches flow into the same response
construction. -/
def download_shopping_cart (st : Store) (user : Nat) : HttpResp :=
  { statusCode := 200
    contentType := "text/plain"
    contentDisposition := "attachment; filename=" ++ "\"shopping_list.txt\""
    body := shoppingText st user }

/-- The response of a create/destroy view on a join table: the status
code, the serialized join record when one is returned (the 201 body),
and the store after the operation.  A 204 or 404 response carries no
record. -/
structure JoinResp where
  statusCode : Nat
  record : Option (Nat × Nat)
  store : Store
  deriving DecidableEq, Repr

/-- FavoriteAPIView.destroy: `get_object_or_404(Favorite,
recipe=recipe_id, user=request.user)` raises 404 when no such row
exists; otherwise the row is deleted and 204 is returned with no body. -/
def favoriteDestroy (st : Store) (user recipeId : Nat) : JoinResp :=
  if (user, recipeId) ∈ st.favorites then
    ⟨204, none, { st with favorites := st.favorites.erase (user, recipeId) }⟩
  else ⟨404, none, st⟩

/-- ShoppingCartAPIView.destroy, analogous to FavoriteAPIView.destroy. -/
def shoppingCartDestroy (st : Store) (user recipeId : Nat) : JoinResp :=
  if (user, recipeId) ∈ st.shoppingCarts then
    ⟨204, none, { st with shoppingCarts := st.shoppingCarts.erase (user, recipeId) }⟩
  else ⟨404, none, st⟩

/-- SubscribeAPIView.destroy: looks up the Subscription row by
(author = user_id from the path, user = the requesting user). -/
def subscribeDestroy (st : Store) (user authorId : Nat) : JoinResp :=
  if (user, authorId) ∈ st.subscriptions then
    ⟨204, none, { st with subscriptions := st.subscriptions.erase (user, authorId) }⟩
  else ⟨404, none, st⟩

/-- FavoriteAPIView.perform_create (under CreateModelMixin):
`get_object_or_404(Recipe, id=recipe_id)` raises 404 when the recipe
does not exist; otherwise `serializer.save(user=request.user,
recipe=recipe)` persists the (user, recipe) row and the mixin responds
201 with the serialized record. -/
def favoriteCreate (st : Store) (user recipeId : Nat) : JoinResp :=
  if recipeId ∈ st.recipes then
    ⟨201, some (user, recipeId),
      { st with favorites := st.favorites ++ [(user, recipeId)] }⟩
  else ⟨404, none, st⟩

/-- ShoppingCartAPIView.perform_create, analogous to
FavoriteAPIView.perform_create. -/
def shoppingCartCreate (st : Store) (user recipeId : Nat) : JoinResp :=
  if recipeId ∈ st.recipes then
    ⟨201, some (user, recipeId),
      { st with shoppingCarts := st.shoppingCarts ++ [(user, recipeId)] }⟩
  else ⟨404, none, st⟩

/-- SubscribeAPIView.perform_create: `get_object_or_404(User,
id=user_id)` raises 404 when the target author does not exist; otherwise
persists the (user, author) row and responds 201 with the serialized
record. -/
def subscribeCreate (st : Store) (user authorId : Nat) : JoinResp :=
  if authorId ∈ st.users then
    ⟨201, some (user, authorId),
      { st with subscriptions := st.subscriptions ++ [(user, authorId)] }⟩
  else ⟨404, none, st⟩

/-- The outcome of UserViewSet.update: the request is forwarded to the
framework's default update handling, rejected outright with a bare
status response, or fails with an uncaught exception, which surfaces to
the client as a server error. -/
inductive UserUpdateResult where
  | delegatedToDefaultUpdate
  | rejected (statusCode : Nat)
  | serverError (statusCode : Nat)
  deriving DecidableEq, Repr

/-- UserViewSet.update: evaluates `kwargs['partial']` by subscript, so
the kwarg is modelled as an optional value.  When the key is absent the
subscript raises KeyError, which no handler converts, so the request
fails with a 500 server error.  When the key holds True the request is
delegated to the default update path; when it holds False a bare 403 is
returned.  The target user id and the payload do not influence the
branch taken. -/
def userUpdate (userId : Nat) (partialKwarg : Option Bool)
    (payload : List (String × String)) : UserUpdateResult :=
  match partialKwarg with
  | none => UserUpdateResult.serverError 500
  | some true => UserUpdateResult.delegatedToDefaultUpdate
  | some false => UserUpdateResult.rejected 403

/-- The 'partial' kwarg the framework supplies when dispatching to
UserViewSet.update: a PUT calls update directly with only the URL
kwargs, so the key is absent; a PATCH goes through partial_update, which
sets the key to True before delegating to update.  No framework path
sets the key to False: the mixin's own update reads it with
`kwargs.pop('partial', False)`, a default this override bypasses. -/
def partialKwargOfMethod (method : String) : Option Bool :=
  if method = "patch" then some true else none

/-- The set_password request payload.  `none` models a field missing
from the request data. -/
structure PasswordPayload where
  current_password : Option String
  new_password : Option String
  deriving DecidableEq, Repr

/-- The response of set_password: status code, the field key of the
error body when the view builds one itself (for a validation failure the
body is the serializer's error mapping, not modelled), the stored
credential after the request, and whether user.save was reached. -/
structure SetPasswordResp where
  statusCode : Nat
  errorField : Option String
  storedAfter : String
  saved : Bool
  deriving DecidableEq, Repr

/-- UserViewSet.set_password.  The credential state is abstracted to the
raw password: `user.check_password(raw)` becomes equality with the
stored value and `user.set_password` followed by `user.save` becomes
replacing it.  Modelled from the spec: PasswordSerializer
(api/serializers.py is outside the excerpt) validates that both
current_password and new_password are supplied; an invalid payload takes
the `serializer.errors` branch, returning 400. -/
def set_password (stored : String) (p : PasswordPayload) : SetPasswordResp :=
  match p.current_password, p.new_password with
  | some cur, some nw =>
    if cur = stored then ⟨204, none, nw, true⟩
    else ⟨400, some "current_password", stored, false⟩
  | _, _ => ⟨400, none, stored, false⟩

/-- Which serializer a recipe response is produced with:
RecipeReadSerializer (the richer, nested read representation) or
RecipeInteractSerializer (the write representation). -/
inductive SerializerKind where
  | read
  | interact
  deriving DecidableEq, Repr

/-- A recipe creation payload: the author field of the request data
(possibly supplied by the client, possibly absent) and the remaining
recipe fields, abstracted to one value. -/
structure RecipePayload where
  author : Option Nat
  rest : String
  deriving DecidableEq, Repr

/-- A persisted recipe as relevant here: its author id and its other
fields. -/
structure RecipeRecord where
  author : Nat
  rest : String
  deriving DecidableEq, Repr

/-- RecipeViewSet.create: `request.data['author'] = request.user.id`
overwrites any client-supplied author before validation, the serializer
persists the data (the author field is always present after the
overwrite, so the `getD` default is never used), and the response is
built by RecipeReadSerializer on the created instance with status 201. -/
def recipeCreate (userId : Nat) (payload : RecipePayload) :
    RecipeRecord × Nat × SerializerKind :=
  let data := { payload with author := some userId }
  let created : RecipeRecord := ⟨data.author.getD 0, data.rest⟩
  (created, 201, SerializerKind.read)

/-- RecipeViewSet.get_serializer_class: the read representation for the
list and retrieve actions, the write representation otherwise. -/
def get_serializer_class (action : String) : SerializerKind :=
  if action = "list" ∨ action = "retrieve" then SerializerKind.read
  else SerializerKind.interact

/-- RecipeViewSet.http_method_names: the only HTTP methods the viewset
dispatches. -/
def http_method_names : List String := ["get", "post", "patch", "delete"]

/-- The outcome of dispatching a request on a single recipe object. -/
inductive DispatchResult where
  | methodNotAllowed (statusCode : Nat)
  | permissionDenied (statusCode : Nat)
  | handled
  deriving DecidableEq, Repr

/-- Modelled from the spec: the AuthorOrReadOnly permission
(api/permissions.py is outside the excerpt) allows read-only access to
everyone and restricts object mutation to the recipe's author
("Update/delete restricted to the recipe's author (or read-only for
others)").  The safe methods are the framework's GET, HEAD, OPTIONS. -/
def authorOrReadOnly (method : String) (requester author : Nat) : Bool :=
  decide (method ∈ ["get", "head", "options"]) || decide (requester = author)

/-- Dispatch of a request on a recipe object: a method outside
http_method_names is rejected with 405 before any handler runs; an
allowed method is then subject to the AuthorOrReadOnly object check,
failing with 403; otherwise the request reaches the handler. -/
def recipeObjectDispatch (method : String) (requester author : Nat) :
    DispatchResult :=
  if decide (method ∈ http_method_names) = false then
    DispatchResult.methodNotAllowed 405
  else if authorOrReadOnly method requester author = false then
    DispatchResult.permissionDenied 403
  else DispatchResult.handled

/-- A small concrete store used to instantiate the theorems: user 1 has
recipes 10 and 20 in the cart, contributing 2 and 3 of the same
ingredient with the same unit. -/
def demoStore : Store :=
  { users := [1, 2]
    recipes := [10, 20]
    ingredientAmounts :=
      [⟨10, "eggs", "pcs", 2⟩, ⟨20, "eggs", "pcs", 3⟩]
    favorites := [(1, 10)]
    shoppingCarts := [(1, 10), (1, 20)]
    subscriptions := [(1, 2)] }

/-- A concrete store in which user 1 has an empty shopping cart. -/
def emptyCartStore : Store :=
  { users := [1]
    recipes := [10]
    ingredientAmounts := [⟨10, "eggs", "pcs", 2⟩]
    favorites := []
    shoppingCarts := []
    subscriptions := [] }

lemma insertionSort_keyLe_eq_nil_iff (l : List (String × String)) :
    List.insertionSort keyLe l = [] ↔ l = [] := by
  constructor
  · intro h
    have hp := List.perm_insertionSort keyLe l
    rw [h] at hp
    exact hp.symm.eq_nil
  · intro h
    subst h
    rfl

lemma shoppingGroups_eq_nil_iff (st : Store) (user : Nat) :
    shoppingGroups st user = [] ↔ cartRows st user = [] := by
  unfold shoppingGroups cartKeys
  rw [List.map_eq_nil_iff, insertionSort_keyLe_eq_nil_iff, List.dedup_eq_nil,
    List.map_eq_nil_iff]

lemma eraseCounts (l : List (Nat × Nat)) (k : Nat × Nat) (h : k ∈ l) :
    (l.erase k).count k + 1 = l.count k ∧
    ∀ p, p ≠ k → (l.erase k).count p = l.count p := by
  constructor
  · have h1 := List.count_erase_self k l
    have h2 : 0 < l.count k := List.count_pos_iff.mpr h
    omega
  · intro p hp
    exact List.count_erase_of_ne hp l

/-- C5: the claim that every PUT to /users/{id} is rejected with 403
fails on the code.  Dispatching a PUT calls update without a 'partial'
kwarg, where the `kwargs['partial']` subscript raises KeyError and the
request fails with a 500 server error instead of the claimed 403; a
PATCH, which sets the kwarg to True, proceeds to the normal update
path.  The 403 branch requires the kwarg present and False, which no
framework dispatch produces. -/
theorem C5_put_user_update_server_error (userId : Nat)
    (payload : List (String × String)) :
    userUpdate userId (partialKwargOfMethod "put") payload =
      UserUpdateResult.serverError 500 ∧
    userUpdate userId (partialKwargOfMethod "patch") payload =
      UserUpdateResult.delegatedToDefaultUpdate ∧
    userUpdate userId (some false) payload = UserUpdateResult.rejected 403 :=
  ⟨rfl, rfl, rfl⟩

/-- C6: set_password with a valid payload whose current_password does
not match the stored credential returns 400 with a field-level error
keyed on current_password and leaves the credential unchanged; with a
matching current_password it updates the stored credential to
new_password and returns 204. -/
theorem C6_set_password_paths (stored cur nw : String) :
    (cur ≠ stored →
      set_password stored ⟨some cur, some nw⟩ =
        ⟨400, some "current_password", stored, false⟩) ∧
    (cur = stored →
      set_password stored ⟨some cur, some nw⟩ = ⟨204, none, nw, true⟩) := by
  constructor
  · intro h
    simp [set_password, h]
  · intro h
    simp [set_password, h]

/-- Witness for C6 at concrete credentials. -/
theorem C6_set_password_paths_witness :
    set_password "old" ⟨some "bad", some "new"⟩ =
      ⟨400, some "current_password", "old", false⟩ ∧
    set_password "old" ⟨some "old", some "new"⟩ = ⟨204, none, "new", true⟩ :=
  ⟨(C6_set_password_paths "old" "bad" "new").1 (by decide),
   (C6_set_password_paths "old" "old" "new").2 rfl⟩

/-- C9: whenever set_password does not return 204 — the payload is
invalid or current_password does not match — the stored credential is
unchanged and user.save is not reached; user.save is reached exactly on
the 204 path. -/
theorem C9_set_password_failure_preserves_credential (stored : String)
    (p : PasswordPayload) :
    ((set_password stored p).statusCode ≠ 204 →
      (set_password stored p).storedAfter = stored ∧
      (set_password stored p).saved = false) ∧
    ((set_password stored p).saved = true ↔
      (set_password stored p).statusCode = 204) := by
  rcases p with ⟨cur, nw⟩
  rcases cur with _ | cur
  · simp [set_password]
  · rcases nw with _ | nw
    · simp [set_password]
    · by_cases h : cur = stored <;> simp [set_password, h]

/-- Witness for C9 at a concrete failing payload. -/
theorem C9_set_password_failure_witness :
    (set_password "old" ⟨some "bad", some "new"⟩).storedAfter = "old" ∧
    (set_password "old" ⟨some "bad", some "new"⟩).saved = false :=
  (C9_set_password_failure_preserves_credential "old"
    ⟨some "bad", some "new"⟩).1 (by decide)

/-- C7: recipe creation sets the author of the persisted recipe to the
authenticated user, overriding any author supplied in the payload,
responds 201, and the response body is produced by the read
representation — while the serializer selected for the create action
itself (the input side) is the write representation. -/
theorem C7_recipe_create_forces_author (userId : Nat)
    (payload : RecipePayload) :
    (recipeCreate userId payload).1.author = userId ∧
    (recipeCreate userId payload).2.1 = 201 ∧
    (recipeCreate userId payload).2.2 = SerializerKind.read ∧
    get_serializer_class "create" = SerializerKind.interact :=
  ⟨rfl, rfl, rfl, by decide⟩

/-- C3: DELETE on a Favorite, ShoppingCart or Subscription join record
looks the record up by the (target id, current user) pair; if absent the
response is 404 and the store is unchanged; if present the response is
204 with no body and exactly that record is removed: its multiplicity
drops by one and every other record's multiplicity is unchanged. -/
theorem C3_destroy_join_records (st : Store) (user target : Nat) :
    (((user, target) ∉ st.favorites →
        favoriteDestroy st user target = ⟨404, none, st⟩) ∧
      ((user, target) ∈ st.favorites →
        favoriteDestroy st user target =
          ⟨204, none,
            { st with favorites := st.favorites.erase (user, target) }⟩ ∧
        (favoriteDestroy st user target).store.favorites.count (user, target)
            + 1 = st.favorites.count (user, target) ∧
        ∀ p, p ≠ (user, target) →
          (favoriteDestroy st user target).store.favorites.count p =
            st.favorites.count p)) ∧
    (((user, target) ∉ st.shoppingCarts →
        shoppingCartDestroy st user target = ⟨404, none, st⟩) ∧
      ((user, target) ∈ st.shoppingCarts →
        shoppingCartDestroy st user target =
          ⟨204, none,
            { st with shoppingCarts := st.shoppingCarts.erase (user, target) }⟩ ∧
        (shoppingCartDestroy st user target).store.shoppingCarts.count
            (user, target) + 1 = st.shoppingCarts.count (user, target) ∧
        ∀ p, p ≠ (user, target) →
          (shoppingCartDestroy st user target).store.shoppingCarts.count p =
            st.shoppingCarts.count p)) ∧
    (((user, target) ∉ st.subscriptions →
        subscribeDestroy st user target = ⟨404, none, st⟩) ∧
      ((user, target) ∈ st.subscriptions →
        subscribeDestroy st user target =
          ⟨204, none,
            { st with subscriptions := st.subscriptions.erase (user, target) }⟩ ∧
        (subscribeDestroy st user target).store.subscriptions.count
            (user, target) + 1 = st.subscriptions.count (user, target) ∧
        ∀ p, p ≠ (user, target) →
          (subscribeDestroy st user target).store.subscriptions.count p =
            st.subscriptions.count p)) := by
  refine ⟨⟨?_, ?_⟩, ⟨?_, ?_⟩, ⟨?_, ?_⟩⟩ <;> intro h
  · simp [favoriteDestroy, h]
  · refine ⟨by simp [favoriteDestroy, h], ?_, ?_⟩
    · simp only [favoriteDestroy, if_pos h]
      exact (eraseCounts st.favorites (user, target) h).1
    · simp only [favoriteDestroy, if_pos h]
      exact (eraseCounts st.favorites (user, target) h).2
  · simp [shoppingCartDestroy, h]
  · refine ⟨by simp [shoppingCartDestroy, h], ?_, ?_⟩
    · simp only [shoppingCartDestroy, if_pos h]
      exact (eraseCounts st.shoppingCarts (user, target) h).1
    · simp only [shoppingCartDestroy, if_pos h]
      exact (eraseCounts st.shoppingCarts (user, target) h).2
  · simp [subscribeDestroy, h]
  · refine ⟨by simp [subscribeDestroy, h], ?_, ?_⟩
    · simp only [subscribeDestroy, if_pos h]
      exact (eraseCounts st.subscriptions (user, target) h).1
    · simp only [subscribeDestroy, if_pos h]
      exact (eraseCounts st.subscriptions (user, target) h).2

/-- Witness for C3 at the concrete demo store: a present favorite is
deleted with 204, an absent favorite, cart row and subscription each
report 404 with the store unchanged, and a present subscription is
deleted with 204. -/
theorem C3_destroy_join_records_witness :
    favoriteDestroy demoStore 1 10 =
      ⟨204, none,
        { demoStore with favorites := demoStore.favorites.erase (1, 10) }⟩ ∧
    favoriteDestroy demoStore 1 20 = ⟨404, none, demoStore⟩ ∧
    shoppingCartDestroy demoStore 2 10 = ⟨404, none, demoStore⟩ ∧
    subscribeDestroy demoStore 1 2 =
      ⟨204, none,
        { demoStore with
            subscriptions := demoStore.subscriptions.erase (1, 2) }⟩ ∧
    subscribeDestroy demoStore 2 1 = ⟨404, none, demoStore⟩ :=
  ⟨((C3_destroy_join_records demoStore 1 10).1.2 (by decide)).1,
   (C3_destroy_join_records demoStore 1 20).1.1 (by decide),
   (C3_destroy_join_records demoStore 2 10).2.1.1 (by decide),
   ((C3_destroy_join_records demoStore 1 2).2.2.2 (by decide)).1,
   (C3_destroy_join_records demoStore 2 1).2.2.1 (by decide)⟩

/-- C4: a POST creating a Favorite, ShoppingCart or Subscription whose
path-specified target (recipe, or author for subscriptions) does not
exist responds 404 and the store is unchanged; when the target exists
the created record binds the requesting user to the target and the
response is 201 carrying the serialized record. -/
theorem C4_create_join_records (st : Store) (user target : Nat) :
    ((target ∉ st.recipes → favoriteCreate st user target = ⟨404, none, st⟩) ∧
      (target ∈ st.recipes →
        favoriteCreate st user target =
          ⟨201, some (user, target),
            { st with favorites := st.favorites ++ [(user, target)] }⟩)) ∧
    ((target ∉ st.recipes →
        shoppingCartCreate st user target = ⟨404, none, st⟩) ∧
      (target ∈ st.recipes →
        shoppingCartCreate st user target =
          ⟨201, some (user, target),
            { st with
                shoppingCarts := st.shoppingCarts ++ [(user, target)] }⟩)) ∧
    ((target ∉ st.users → subscribeCreate st user target = ⟨404, none, st⟩) ∧
      (target ∈ st.users →
        subscribeCreate st user target =
          ⟨201, some (user, target),
            { st with
                subscriptions := st.subscriptions ++ [(user, target)] }⟩)) := by
  refine ⟨⟨?_, ?_⟩, ⟨?_, ?_⟩, ⟨?_, ?_⟩⟩ <;> intro h
  · simp [favoriteCreate, h]
  · simp [favoriteCreate, h]
  · simp [shoppingCartCreate, h]
  · simp [shoppingCartCreate, h]
  · simp [subscribeCreate, h]
  · simp [subscribeCreate, h]

/-- Witness for C4 at the concrete demo store: creating against an
existing recipe or author yields 201 and appends the bound record;
creating against a missing recipe or author yields 404 and leaves the
store unchanged. -/
theorem C4_create_join_records_witness :
    favoriteCreate demoStore 1 20 =
      ⟨201, some (1, 20),
        { demoStore with
            favorites := demoStore.favorites ++ [(1, 20)] }⟩ ∧
    favoriteCreate demoStore 1 99 = ⟨404, none, demoStore⟩ ∧
    shoppingCartCreate demoStore 2 99 = ⟨404, none, demoStore⟩ ∧
    subscribeCreate demoStore 2 1 =
      ⟨201, some (2, 1),
        { demoStore with
            subscriptions := demoStore.subscriptions ++ [(2, 1)] }⟩ ∧
    subscribeCreate demoStore 1 99 = ⟨404, none, demoStore⟩ :=
  ⟨(C4_create_join_records demoStore 1 20).1.2 (by decide),
   (C4_create_join_records demoStore 1 99).1.1 (by decide),
   (C4_create_join_records demoStore 2 99).2.1.1 (by decide),
   (C4_create_join_records demoStore 2 1).2.2.2 (by decide),
   (C4_create_join_records demoStore 1 99).2.2.1 (by decide)⟩

/-- C8: PUT is never dispatched to a recipe handler (it is rejected as a
disallowed method), every dispatched method is one of GET, POST, PATCH,
DELETE, and a PATCH or DELETE on a recipe by a requester who is not its
author is rejected with permission denied. -/
theorem C8_recipe_methods_and_author_permission (requester author : Nat) :
    recipeObjectDispatch "put" requester author =
      DispatchResult.methodNotAllowed 405 ∧
    (∀ m, recipeObjectDispatch m requester author ≠
        DispatchResult.methodNotAllowed 405 → m ∈ http_method_names) ∧
    (requester ≠ author →
      recipeObjectDispatch "patch" requester author =
        DispatchResult.permissionDenied 403 ∧
      recipeObjectDispatch "delete" requester author =
        DispatchResult.permissionDenied 403) := by
  refine ⟨rfl, fun m hm => ?_, fun h => ⟨?_, ?_⟩⟩
  · by_cases h : m ∈ http_method_names
    · exact h
    · exact absurd (by simp [recipeObjectDispatch, h]) hm
  · simp [recipeObjectDispatch, authorOrReadOnly, http_method_names, h]
  · simp [recipeObjectDispatch, authorOrReadOnly, http_method_names, h]

/-- Witness for C8 at concrete users 1 and 2. -/
theorem C8_recipe_methods_witness :
    recipeObjectDispatch "put" 1 2 = DispatchResult.methodNotAllowed 405 ∧
    recipeObjectDispatch "patch" 1 2 = DispatchResult.permissionDenied 403 ∧
    recipeObjectDispatch "delete" 1 2 = DispatchResult.permissionDenied 403 ∧
    "get" ∈ http_method_names :=
  ⟨(C8_recipe_methods_and_author_permission 1 2).1,
   ((C8_recipe_methods_and_author_permission 1 2).2.2 (by decide)).1,
   ((C8_recipe_methods_and_author_permission 1 2).2.2 (by decide)).2,
   (C8_recipe_methods_and_author_permission 1 2).2.1 "get" (by decide)⟩

/-- C2: with an empty shopping cart the download body is exactly the
literal empty-cart message; with a non-empty cart the response has
status 200, content type text/plain and the Content-Disposition header
attachment; filename="shopping_list.txt". -/
theorem C2_download_cart_empty_body_and_headers (st : Store) (user : Nat) :
    (cartRows st user = [] →
      (download_shopping_cart st user).body = emptyCartMessage) ∧
    (cartRows st user ≠ [] →
      (download_shopping_cart st user).statusCode = 200 ∧
      (download_shopping_cart st user).contentType = "text/plain" ∧
      (download_shopping_cart st user).contentDisposition =
        "attachment; filename=" ++ "\"shopping_list.txt\"") := by
  constructor
  · intro h
    have hg : shoppingGroups st user = [] :=
      (shoppingGroups_eq_nil_iff st user).mpr h
    simp [download_shopping_cart, shoppingText, hg]
  · intro _
    exact ⟨rfl, rfl, rfl⟩

/-- Witness for C2: the empty-cart store yields the literal message, the
demo store yields the download headers. -/
theorem C2_download_cart_witness :
    (download_shopping_cart emptyCartStore 1).body = emptyCartMessage ∧
    (download_shopping_cart demoStore 1).statusCode = 200 ∧
    (download_shopping_cart demoStore 1).contentType = "text/plain" ∧
    (download_shopping_cart demoStore 1).contentDisposition =
      "attachment; filename=" ++ "\"shopping_list.txt\"" :=
  ⟨(C2_download_cart_empty_body_and_headers emptyCartStore 1).1 (by decide),
   (C2_download_cart_empty_body_and_headers demoStore 1).2 (by decide)⟩

/-- C10: with an empty shopping cart, download_shopping_cart still
responds 200 with content type text/plain and the Content-Disposition
header naming the attachment shopping_list.txt — the empty-cart message
is served through the very same response construction as the non-empty
listing. -/
theorem C10_empty_cart_still_attachment (st : Store) (user : Nat)
    (h : cartRows st user = []) :
    download_shopping_cart st user =
      ⟨200, "text/plain", "attachment; filename=" ++ "\"shopping_list.txt\"",
        emptyCartMessage⟩ := by
  have hg : shoppingGroups st user = [] :=
    (shoppingGroups_eq_nil_iff st user).mpr h
  simp [download_shopping_cart, shoppingText, hg]

/-- Witness for C10 at the concrete empty-cart store. -/
theorem C10_empty_cart_witness :
    download_shopping_cart emptyCartStore 1 =
      ⟨200, "text/plain", "attachment; filename=" ++ "\"shopping_list.txt\"",
        emptyCartMessage⟩ :=
  C10_empty_cart_still_attachment emptyCartStore 1 (by decide)

/-- C1: download_shopping_cart aggregates the ingredient rows of every
recipe in the user's cart: the produced groups are ordered by ingredient
name, each (name, unit) pair appears in at most one group, each group's
amount is the sum of the amounts of exactly the cart rows carrying that
(name, unit) pair, every cart row is covered by some group, and the
non-empty body is the header line followed by one "name: amount unit"
line per group. -/
theorem C1_download_cart_aggregation (st : Store) (user : Nat) :
    (shoppingGroups st user).Pairwise (fun g h => g.1 ≤ h.1) ∧
    ((shoppingGroups st user).map (fun g => (g.1, g.2.1))).Nodup ∧
    (∀ g ∈ shoppingGroups st user,
      g.2.2 = (((cartRows st user).filter
          (fun r => decide (r.ingredientName = g.1 ∧
            r.measurementUnit = g.2.1))).map (fun r => r.amount)).sum) ∧
    (∀ r ∈ cartRows st user, ∃ g ∈ shoppingGroups st user,
      g.1 = r.ingredientName ∧ g.2.1 = r.measurementUnit) ∧
    (shoppingGroups st user ≠ [] →
      (download_shopping_cart st user).body =
        String.join
          (shoppingHeader :: (shoppingGroups st user).map shoppingLine)) := by
  refine ⟨?_, ?_, ?_, ?_, ?_⟩
  · have hs : List.Pairwise keyLe (List.insertionSort keyLe (cartKeys st user)) :=
      List.sorted_insertionSort keyLe (cartKeys st user)
    unfold shoppingGroups
    refine List.Pairwise.map _ ?_ hs
    intro a b hab
    rcases hab with h | ⟨h, _⟩
    · exact le_of_lt h
    · exact le_of_eq h
  · have hnd : (List.insertionSort keyLe (cartKeys st user)).Nodup :=
      ((List.perm_insertionSort keyLe (cartKeys st user)).nodup_iff).mpr
        (List.nodup_dedup _)
    have hmap : (shoppingGroups st user).map (fun g => (g.1, g.2.1)) =
        List.insertionSort keyLe (cartKeys st user) := by
      unfold shoppingGroups
      rw [List.map_map]
      have hfun : ((fun g : String × String × Nat => (g.1, g.2.1)) ∘
          (fun k : String × String => (k.1, k.2, groupAmount st user k))) =
            id := rfl
      rw [hfun, List.map_id]
    rw [hmap]
    exact hnd
  · intro g hg
    unfold shoppingGroups at hg
    rcases List.mem_map.mp hg with ⟨k, _, rfl⟩
    rfl
  · intro r hr
    have hk : ingredientKey r ∈ cartKeys st user := by
      unfold cartKeys
      exact List.mem_dedup.mpr (List.mem_map_of_mem ingredientKey hr)
    have hk2 : ingredientKey r ∈ List.insertionSort keyLe (cartKeys st user) :=
      ((List.perm_insertionSort keyLe (cartKeys st user)).mem_iff).mpr hk
    refine ⟨((ingredientKey r).1, (ingredientKey r).2,
      groupAmount st user (ingredientKey r)), ?_, rfl, rfl⟩
    unfold shoppingGroups
    exact List.mem_map_of_mem _ hk2
  · intro h
    have hlen : ¬ (shoppingGroups st user).length = 0 := by
      simpa [List.length_eq_zero] using h
    simp [download_shopping_cart, shoppingText, hlen]

/-- Witness for C1 at the concrete demo store: the cart holds recipes
contributing 2 and 3 of the same ingredient with the same unit, and the
result is a single aggregated group with amount 5, rendered as one body
line after the header. -/
theorem C1_download_cart_witness :
    shoppingGroups demoStore 1 = [("eggs", "pcs", 5)] ∧
    (download_shopping_cart demoStore 1).body =
      String.join
        (shoppingHeader :: (shoppingGroups demoStore 1).map shoppingLine) ∧
    (download_shopping_cart demoStore 1).body =
      "Список покупок:\neggs: 5 pcs\n" :=
  ⟨by decide,
   (C1_download_cart_aggregation demoStore 1).2.2.2.2 (by decide),
   by decide⟩
